import Mathlib

/-!
Formal model of `src/emailReminder.py` (NotificationTenant repository).

The script is a sequential batch job: it loads a JSON list of tenant
records, sends one reminder email per tenant (validating required fields
and the numeric payment amount first), accumulates success/failure
counters plus an ordered list of failed-tenant records in process-global
state, then sends a summary email and a log email to a fixed operator
address.

Embedding conventions:
- Python numeric values are modelled as exact rationals.  The script only
  formats amounts with two decimals and never does float arithmetic, so
  the rational abstraction is exact on all inputs appearing in the
  claims.  IEEE infinities/NaN, underscore digit separators and unicode
  digits accepted by the Python float constructor are outside the model
  and noted at `pyFloatOfString`.
- A tenant record is a JSON object, modelled as an association list from
  keys to JSON scalar values.  Array/object field values are kept as
  payload-free markers: no claim inspects their contents; they only
  matter as values that are present but not coercible by the float
  constructor.  Non-object elements of the tenant array are outside the
  Tenant data model of the spec (section 3) and are not modelled.
- The process-global mutable state (success_count, failure_count,
  failed_tenants, the log) is threaded explicitly as a `RunState`.
  `RunState.sent` and `RunState.phases` are observation fields, not
  program variables: `sent` records each invocation of the mail
  transport, `phases` records entry into each of the three run phases.
- The SMTP interaction of one send attempt (connect, starttls, login,
  sendmail) is opaque to the script and is modelled as a behaviour
  parameter returning success, an SMTPException, or another exception.
- Python try/except structure is kept: each function with a try block is
  split into a `..._body` returning `Except (PyExn x RunState) RunState`
  (the exception together with the state mutated so far) and a wrapper
  implementing the except clauses, in their source order.
-/

set_option linter.unusedVariables false
set_option maxRecDepth 10000

/- Rational arithmetic in Batteries is sealed behind `irreducible`;
witnesses evaluate concrete states by kernel reduction, which needs the
definitions to unfold. -/
set_option allowUnsafeReducibility true in
attribute [semireducible] Rat.add Rat.mul Rat.inv Rat.sub

namespace EmailReminder

/-- Absolute value, written so that it unfolds by reduction. -/
def ratAbs (q : ℚ) : ℚ := if q < 0 then -q else q

/-- JSON scalar values as they occur in tenant records.  `jarr` and
`jobj` stand for array/object values; their payloads are omitted because
no claim inspects collection contents (they behave only as present,
non-float-coercible values). -/
inductive JVal where
  | str (s : String)
  | jint (n : Int)
  | jnum (q : ℚ)
  | jbool (b : Bool)
  | jnull
  | jarr
  | jobj
deriving DecidableEq

/-- Digits of a natural number, padded on the left with zeros to width
`k` (used for fraction rendering). -/
def natPad (n k : Nat) : String :=
  let s := toString n
  String.mk (List.replicate (k - s.length) '0') ++ s

/-- Smallest exponent `k` (up to 30) with `q * 10 ^ k` integral, if any. -/
def decExponent (q : ℚ) : Option Nat :=
  (List.range 31).find? (fun k => (q * (10 : ℚ) ^ k).den = 1)

/-- Rendering of a Python float value, as `str` produces it: integral
values render as `<int>.0`, terminating decimals by their digits.  All
floats arising from JSON are terminating decimals; for the remaining
(unreachable from JSON) rationals a `num/den` fallback is used. -/
def floatStr (q : ℚ) : String :=
  match decExponent q with
  | some 0 => toString q.num ++ ".0"
  | some k =>
      let sgn := if q < 0 then "-" else ""
      let n := ((ratAbs q * (10 : ℚ) ^ k).num).toNat
      sgn ++ toString (n / 10 ^ k) ++ "." ++ natPad (n % 10 ^ k) k
  | none => toString q.num ++ "/" ++ toString q.den

/-- Rendering of a JSON value under Python `str`, as interpolated by an
f-string.  Collection payloads are not modelled, so `jarr`/`jobj`
render as fixed placeholders (no claim depends on their rendering). -/
def pyStr (v : JVal) : String :=
  match v with
  | .str s => s
  | .jint n => toString n
  | .jnum q => floatStr q
  | .jbool b => if b then "True" else "False"
  | .jnull => "None"
  | .jarr => "[...]"
  | .jobj => "\x7b...\x7d"

/-- Rendering of a JSON value under Python `repr`, as used when a whole
dict is interpolated (string escaping inside the quotes is not
modelled). -/
def pyReprV (v : JVal) : String :=
  match v with
  | .str s => "\x27" ++ s ++ "\x27"
  | v => pyStr v

/-- A tenant record: a JSON object, as an association list. -/
abbrev Tenant := List (String × JVal)

/-- Dict key lookup (first binding; JSON objects have unique keys). -/
def tenantLookup (t : Tenant) (k : String) : Option JVal :=
  (t.find? (fun p => p.1 == k)).map (·.2)

/-- The Python membership test `k in tenant`. -/
def tenantHasKey (t : Tenant) (k : String) : Bool :=
  (tenantLookup t k).isSome

/-- The Python `tenant.get(k, d)`. -/
def tenantGetD (t : Tenant) (k : String) (d : JVal) : JVal :=
  (tenantLookup t k).getD d

/-- Python `repr` of a tenant dict, as interpolated into log messages. -/
def pyReprTenant (t : Tenant) : String :=
  "\x7b" ++ String.intercalate ", "
    (t.map (fun p => "\x27" ++ p.1 ++ "\x27: " ++ pyReprV p.2)) ++ "\x7d"

/-- Value of a digit list under base 10. -/
def digitsVal (ds : List Char) : Nat :=
  ds.foldl (fun a c => a * 10 + (c.toNat - 48)) 0

/-- Exponent part of a float literal: optional sign then at least one
digit, consuming the whole remainder. -/
def parseExpPart (m : ℚ) (cs : List Char) : Option ℚ :=
  let (neg, ds) :=
    match cs with
    | '+' :: rest => (false, rest)
    | '-' :: rest => (true, rest)
    | rest => (false, rest)
  if ds.isEmpty || !ds.all Char.isDigit then none
  else
    let e := digitsVal ds
    some (if neg then m / (10 : ℚ) ^ e else m * (10 : ℚ) ^ e)

/-- Unsigned part of a Python float literal: digits with an optional
decimal point and an optional exponent. -/
def parseUnsignedFloat (cs : List Char) : Option ℚ :=
  let (ip, rest) := cs.span Char.isDigit
  match rest with
  | [] => if ip.isEmpty then none else some (digitsVal ip : ℚ)
  | '.' :: rest2 =>
      let (fp, rest3) := rest2.span Char.isDigit
      if ip.isEmpty && fp.isEmpty then none
      else
        let m : ℚ := (digitsVal ip : ℚ) + (digitsVal fp : ℚ) / (10 : ℚ) ^ fp.length
        match rest3 with
        | [] => some m
        | c :: rest4 => if c == 'e' || c == 'E' then parseExpPart m rest4 else none
  | c :: rest2 =>
      if (c == 'e' || c == 'E') && !ip.isEmpty then
        parseExpPart (digitsVal ip : ℚ) rest2
      else none

/-- Strip leading and trailing whitespace from a character list. -/
def trimWs (cs : List Char) : List Char :=
  ((cs.dropWhile Char.isWhitespace).reverse.dropWhile Char.isWhitespace).reverse

/-- Conversion of a string by the Python float constructor: surrounding
whitespace is stripped, then an optional sign and a decimal literal with
optional fraction and exponent.  The inf/nan spellings, underscore
separators and non-ASCII digits also accepted by Python are outside this
model (no claim involves them); on those inputs the model reports
failure.  Whitespace stripping is implemented on the character list so
that it evaluates by reduction. -/
def pyFloatOfString (s : String) : Option ℚ :=
  match trimWs s.toList with
  | '+' :: rest => parseUnsignedFloat rest
  | '-' :: rest => (parseUnsignedFloat rest).map Neg.neg
  | cs => parseUnsignedFloat cs

/-- Outcome of the Python float constructor on a non-float argument. -/
inductive FloatErr where
  | valueError
  | typeError (typeName : String)
deriving DecidableEq

/-- Equality of `Except` results is decidable componentwise. -/
instance {α β : Type} [DecidableEq α] [DecidableEq β] :
    DecidableEq (Except α β) := fun a b =>
  match a, b with
  | .ok x, .ok y =>
      if h : x = y then .isTrue (by rw [h]) else .isFalse (by simp [h])
  | .error e, .error f =>
      if h : e = f then .isTrue (by rw [h]) else .isFalse (by simp [h])
  | .ok _, .error _ => .isFalse (by simp)
  | .error _, .ok _ => .isFalse (by simp)

/-- The Python call `float(v)` on a JSON value: numbers and booleans
coerce, strings parse or raise ValueError, and null/array/object
arguments raise TypeError. -/
def pyFloat (v : JVal) : Except FloatErr ℚ :=
  match v with
  | .str s =>
      match pyFloatOfString s with
      | some q => .ok q
      | none => .error .valueError
  | .jint n => .ok (n : ℚ)
  | .jnum q => .ok q
  | .jbool b => .ok (if b then 1 else 0)
  | .jnull => .error (.typeError "NoneType")
  | .jarr => .error (.typeError "list")
  | .jobj => .error (.typeError "dict")

/-- Message text of the TypeError raised by the float constructor
(CPython wording). -/
def floatTypeErrorMsg (typeName : String) : String :=
  "float() argument must be a string or a real number, not \x27" ++
    typeName ++ "\x27"

/-- Round a nonnegative rational to the nearest integer, ties to even
(the rounding used by Python fixed-point formatting). -/
def roundHalfEven (a : ℚ) : Nat :=
  let f := a.floor
  let r := a - (f : ℚ)
  if r < 1 / 2 then f.toNat
  else if 1 / 2 < r then (f + 1).toNat
  else if f % 2 = 0 then f.toNat else (f + 1).toNat

/-- Python formatting `f"{x:.2f}"`: sign, integer part, exactly two
fraction digits, rounding half to even. -/
def formatFixed2 (q : ℚ) : String :=
  let sgn := if q < 0 then "-" else ""
  let cents := roundHalfEven (ratAbs q * 100)
  sgn ++ toString (cents / 100) ++ "." ++ natPad (cents % 100) 2

/-- Outcome of one SMTP interaction (open connection, starttls, login,
sendmail): success, an SMTPException, or any other exception, each with
its message text. -/
inductive SmtpResult where
  | ok
  | smtpError (msg : String)
  | otherError (msg : String)
deriving DecidableEq

/-- One invocation of the mail transport, as observed by the model. -/
structure SendCall where
  recipient : JVal
  subject : String
  body : String
  attachment : Option String
deriving DecidableEq

/-- Behaviour of the mail transport for the per-tenant reminder sends:
given recipient, subject and body, the outcome of the send attempt. -/
abbrev Transport := JVal → String → String → SmtpResult

/-- One entry of `failed_tenants`: the dict appended on a failure. -/
structure FailedRec where
  tenant : JVal
  email : JVal
  reason : String
deriving DecidableEq

/-- Level of a logging call. -/
inductive LogLevel where
  | info
  | warning
  | error
deriving DecidableEq

/-- One logging call: level and rendered message. -/
structure LogEvent where
  level : LogLevel
  msg : String
deriving DecidableEq

/-- The three phases of one run of `check_and_send_email`. -/
inductive Phase where
  | validateSend
  | summarize
  | shipLog
deriving DecidableEq

/-- Process state threaded through the model: the three mutable globals
of the script, the log, and two observation fields (`sent`: transport
invocations; `phases`: phase entries). -/
structure RunState where
  success_count : Nat := 0
  failure_count : Nat := 0
  failed_tenants : List FailedRec := []
  log : List LogEvent := []
  sent : List SendCall := []
  phases : List Phase := []
deriving DecidableEq

/-- State at module initialization (lines 64-67 of the source). -/
def initState : RunState := {}

/-- Exceptions distinguished by the except clauses of the script. -/
inductive PyExn where
  | smtpExn (msg : String)
  | fileNotFound
  | otherExn (msg : String)
deriving DecidableEq

/-- Message text of an exception, as interpolated by an f-string. -/
def pyExnStr (e : PyExn) : String :=
  match e with
  | .smtpExn m => m
  | .fileNotFound => "FileNotFoundError"
  | .otherExn m => m

/-- The list `required_fields` of `send_email_reminder` (line 77). -/
def required_fields : List String :=
  ["email", "name", "payment_amount", "payment_description"]

/-- Composition of the reminder subject and body (lines 104-120).  The
`env` argument stands for the process-global state in scope at the
composition site; the subject and body do not read it, which is the
content of the purity claim. -/
def composeReminder (env : RunState) (t : Tenant) (payment_amount : ℚ) :
    String × String :=
  ("Rent Payment Reminder",
   "Dear " ++ pyStr (tenantGetD t "name" .jnull) ++
   ",\n\nThis is a friendly reminder that your rent payment of $" ++
   formatFixed2 payment_amount ++
   " is due soon.\n\nPayment Details:\nProperty: " ++
   pyStr (tenantGetD t "property_location" (.str "N/A")) ++
   "\nDescription: " ++
   pyStr (tenantGetD t "payment_description" .jnull) ++
   "\nAmount: $" ++ formatFixed2 payment_amount ++
   "\n\n\nIf payment is not received by the 5th day of the month, a 10% late fee will be imposed.\nIf you have any questions or need more information, please visit:\nhttps://segundorentalservices.net/\n\nThank you!\nLandlord")

/-- Try-block of `send_email_reminder` (lines 75-136): validation of
required fields, float coercion of the payment amount, composition, and
the transport call.  Validation failures return normally with the
failure recorded; exceptions return `.error` together with the state
mutated so far.  The lookups of fields whose presence was just validated
use a `jnull` default standing for the impossible KeyError. -/
def send_email_reminder_body (T : Transport) (t : Tenant) (s : RunState) :
    Except (PyExn × RunState) RunState :=
  match required_fields.find? (fun f => !tenantHasKey t f) with
  | some field =>
      .ok { s with
        log := s.log ++ [⟨.error,
          "Missing \x27" ++ field ++ "\x27 in tenant data: " ++ pyReprTenant t⟩],
        failure_count := s.failure_count + 1,
        failed_tenants := s.failed_tenants ++ [⟨tenantGetD t "name" (.str "Unknown"),
          tenantGetD t "email" (.str "Unknown"), "Missing field: " ++ field⟩] }
  | none =>
      match tenantLookup t "payment_amount" with
      | none => .error (.otherExn "KeyError: \x27payment_amount\x27", s)
      | some amtv =>
        match pyFloat amtv with
        | .error .valueError =>
            .ok { s with
              log := s.log ++ [⟨.error,
                "Invalid payment_amount for tenant " ++
                pyStr (tenantGetD t "name" (.str "Unknown")) ++ ": " ++ pyStr amtv⟩],
              failure_count := s.failure_count + 1,
              failed_tenants := s.failed_tenants ++ [⟨tenantGetD t "name" (.str "Unknown"),
                tenantGetD t "email" (.str "Unknown"),
                "Invalid payment_amount: " ++ pyStr amtv⟩] }
        | .error (.typeError tn) => .error (.otherExn (floatTypeErrorMsg tn), s)
        | .ok payment_amount =>
            let sb := composeReminder s t payment_amount
            let recip := tenantGetD t "email" .jnull
            let s1 := { s with sent := s.sent ++ [⟨recip, sb.1, sb.2, none⟩] }
            match T recip sb.1 sb.2 with
            | .ok =>
                .ok { s1 with
                  log := s1.log ++ [⟨.info,
                    "Reminder email sent successfully to " ++
                    pyStr (tenantGetD t "name" .jnull) ++ " (" ++ pyStr recip ++ ")."⟩],
                  success_count := s1.success_count + 1 }
            | .smtpError m => .error (.smtpExn m, s1)
            | .otherError m => .error (.otherExn m, s1)

/-- The function `send_email_reminder` (lines 70-155): the try-block
above with its two except clauses, SMTPException first (lines 138-146),
then the generic Exception clause (lines 147-155). -/
def send_email_reminder (T : Transport) (t : Tenant) (s : RunState) : RunState :=
  match send_email_reminder_body T t s with
  | .ok s1 => s1
  | .error (.smtpExn m, s1) =>
      { s1 with
        log := s1.log ++ [⟨.error,
          "SMTP error when sending email to " ++
          pyStr (tenantGetD t "email" (.str "Unknown")) ++ ": " ++ m⟩],
        failure_count := s1.failure_count + 1,
        failed_tenants := s1.failed_tenants ++ [⟨tenantGetD t "name" (.str "Unknown"),
          tenantGetD t "email" (.str "Unknown"), "SMTP error: " ++ m⟩] }
  | .error (e, s1) =>
      { s1 with
        log := s1.log ++ [⟨.error,
          "Unexpected error when sending email to " ++
          pyStr (tenantGetD t "email" (.str "Unknown")) ++ ": " ++ pyExnStr e⟩],
        failure_count := s1.failure_count + 1,
        failed_tenants := s1.failed_tenants ++ [⟨tenantGetD t "name" (.str "Unknown"),
          tenantGetD t "email" (.str "Unknown"), "Unexpected error: " ++ pyExnStr e⟩] }

/-- The function `send_emails_to_all_tenants` (lines 260-269): warn and
return on an empty list, otherwise process each tenant in order. -/
def send_emails_to_all_tenants (T : Transport) (tenants : List Tenant)
    (s : RunState) : RunState :=
  match tenants with
  | [] => { s with log := s.log ++ [⟨.warning, "No tenants found to send emails."⟩] }
  | _ => tenants.foldl (fun st t => send_email_reminder T t st) s

/-- Fixed recipient of the summary and log emails (lines 190, 228). -/
def landlordAddress : String := "iperezmba@gmail.com"

/-- Leading part of the summary body (lines 164-173). -/
def alertBodyPrefix (total sc fc : Nat) : String :=
  "Hello,\n\nAll rent reminder emails have been processed.\n\nSummary:\n- Total Tenants: " ++
  toString total ++ "\n- Successfully Sent: " ++ toString sc ++
  "\n- Failed to Send: " ++ toString fc ++ "\n\n"

/-- One enumerated line of the failed-tenant list (lines 176-178). -/
def failedLine (r : FailedRec) : String :=
  "- " ++ pyStr r.tenant ++ " (" ++ pyStr r.email ++ "): " ++ r.reason ++ "\n"

/-- Trailing part of the summary body (lines 180-184). -/
def alertBodySuffix : String :=
  "\n\nBest regards,\nYour Automated Email System\n"

/-- The summary body built by `send_alert_email` (lines 164-184): the
counters, then, when failures were counted, the header line and one line
per failed tenant accumulated by string concatenation, then the fixed
closing. -/
def buildAlertBody (total sc fc : Nat) (failed : List FailedRec) : String :=
  let body := alertBodyPrefix total sc fc
  let body :=
    if 0 < fc then
      failed.foldl (fun b r => b ++ failedLine r) (body ++ "Failed Tenants:\n")
    else body
  body ++ alertBodySuffix

/-- Try-block of `send_alert_email` (lines 162-202): build the summary
body, attempt the transport call (`res` is its outcome), log on
success. -/
def send_alert_email_body (res : SmtpResult) (total : Nat) (s : RunState) :
    Except (PyExn × RunState) RunState :=
  let body := buildAlertBody total s.success_count s.failure_count s.failed_tenants
  let s1 := { s with sent := s.sent ++
    [⟨.str landlordAddress, "Rent Reminder Emails Sent - Summary", body, none⟩] }
  match res with
  | .ok => .ok { s1 with log := s1.log ++
      [⟨.info, "Alert email sent successfully to the landlord."⟩] }
  | .smtpError m => .error (.smtpExn m, s1)
  | .otherError m => .error (.otherExn m, s1)

/-- The function `send_alert_email` (lines 158-207): the try-block with
its SMTPException clause (lines 204-205) and generic clause (lines
206-207); both only log. -/
def send_alert_email (res : SmtpResult) (total : Nat) (s : RunState) : RunState :=
  match send_alert_email_body res total s with
  | .ok s1 => s1
  | .error (.smtpExn m, s1) =>
      { s1 with log := s1.log ++
        [⟨.error, "SMTP error when sending alert email: " ++ m⟩] }
  | .error (e, s1) =>
      { s1 with log := s1.log ++
        [⟨.error, "Unexpected error when sending alert email: " ++ pyExnStr e⟩] }

/-- Fixed body of the log email (lines 216-222). -/
def logEmailBody : String :=
  "Hello,\n\nPlease find attached the log file for the latest execution of the email reminder script.\n\nBest regards,\nYour Automated Email System\n"

/-- Try-block of `send_log_email` (lines 214-249): the log file is read
to build the attachment (FileNotFoundError when absent, before any
transport interaction), then the transport call is attempted. -/
def send_log_email_body (res : SmtpResult) (logFile : Option String)
    (s : RunState) : Except (PyExn × RunState) RunState :=
  match logFile with
  | none => .error (.fileNotFound, s)
  | some content =>
      let s1 := { s with sent := s.sent ++
        [⟨.str landlordAddress, "Email Reminder Logs - Execution Summary",
          logEmailBody, some content⟩] }
      match res with
      | .ok => .ok { s1 with log := s1.log ++
          [⟨.info, "Log email sent successfully to the landlord."⟩] }
      | .smtpError m => .error (.smtpExn m, s1)
      | .otherError m => .error (.otherExn m, s1)

/-- The function `send_log_email` (lines 210-257): the try-block with
except clauses for FileNotFoundError (lines 251-253), SMTPException
(254-255) and Exception (256-257); all only log. -/
def send_log_email (res : SmtpResult) (logFile : Option String)
    (logPath : String) (s : RunState) : RunState :=
  match send_log_email_body res logFile s with
  | .ok s1 => s1
  | .error (.fileNotFound, s1) =>
      { s1 with log := s1.log ++
        [⟨.error, "Log file not found at " ++ logPath ++ ". Cannot send log email."⟩] }
  | .error (.smtpExn m, s1) =>
      { s1 with log := s1.log ++
        [⟨.error, "SMTP error when sending log email: " ++ m⟩] }
  | .error (e, s1) =>
      { s1 with log := s1.log ++
        [⟨.error, "Unexpected error when sending log email: " ++ pyExnStr e⟩] }

/-- The function `check_and_send_email` (lines 272-278): the three
phases in their fixed order.  `T` is the transport behaviour for the
per-tenant sends, `ares`/`lres` the outcomes of the summary and log
transport attempts, `logFile` the content of the log file if it exists,
and `tenants` the module-global TENANTS list.  Entry into each phase is
recorded in the `phases` observation field. -/
def check_and_send_email (T : Transport) (ares lres : SmtpResult)
    (logFile : Option String) (logPath : String) (tenants : List Tenant)
    (s : RunState) : RunState :=
  let s1 := send_emails_to_all_tenants T tenants
    { s with phases := s.phases ++ [.validateSend] }
  let s2 := send_alert_email ares tenants.length
    { s1 with phases := s1.phases ++ [.summarize] }
  send_log_email lres logFile logPath { s2 with phases := s2.phases ++ [.shipLog] }

/-- Result of reading and parsing the tenants file (lines 48-62):
missing file, JSON decode error, a parsed top-level value that is not an
array, or a parsed array of tenant objects. -/
inductive TenantsSource where
  | fileMissing
  | malformedJson (err : String)
  | parsedNonArray (v : JVal)
  | parsedArray (tenants : List Tenant)

/-- The module-level TENANTS loading (lines 48-62): every failure is
recoverable, yielding the empty list and an error log entry; the process
is never aborted here. -/
def loadTenants (path : String) : TenantsSource → List Tenant × List LogEvent
  | .fileMissing =>
      ([], [⟨.error, "tenants.json file not found at " ++ path ++ "."⟩])
  | .malformedJson e =>
      ([], [⟨.error, "tenants.json is not a valid JSON file: " ++ e⟩])
  | .parsedNonArray _ =>
      ([], [⟨.error, "tenants.json should be a JSON array of tenant objects."⟩])
  | .parsedArray ts => (ts, [])

/-- Substring containment, the sense in which a body "contains" a piece
of text. -/
def strContains (s pat : String) : Prop :=
  ∃ pre suf, s = pre ++ pat ++ suf

/-! Concrete fixtures used by witnesses and counterexamples. -/

/-- A transport that always succeeds. -/
def alwaysOk : Transport := fun _ _ _ => .ok

/-- A transport whose every send attempt raises an SMTPException with
message "boom". -/
def alwaysBoom : Transport := fun _ _ _ => .smtpError "boom"

/-- The valid tenant of spec scenario A. -/
def aliceTenant : Tenant :=
  [("name", .str "Alice"), ("email", .str "a@x.com"),
   ("payment_amount", .str "950"), ("payment_description", .str "March rent")]

/-- A second valid tenant, used as a subsequent list element. -/
def bobTenant : Tenant :=
  [("name", .str "Bob"), ("email", .str "b@x.com"),
   ("payment_amount", .str "700"), ("payment_description", .str "March rent")]

/-- A tenant record with every required field except `email`. -/
def noEmailTenant : Tenant :=
  [("name", .str "Carol"), ("payment_amount", .str "800"),
   ("payment_description", .str "March rent")]

/-- A tenant record whose payment_amount is present but is the JSON
value null. -/
def nullAmountTenant : Tenant :=
  [("email", .str "n@x.com"), ("name", .str "Nina"),
   ("payment_amount", .jnull), ("payment_description", .str "rent")]

/-- A tenant whose payment_amount is a string that does not parse as a
number. -/
def badAmountTenant : Tenant :=
  [("email", .str "d@x.com"), ("name", .str "Dave"),
   ("payment_amount", .str "abc"), ("payment_description", .str "rent")]

/-- The reminder body composed for the tenant of scenario A. -/
def aliceBody : String := "Dear Alice,\n\nThis is a friendly reminder that your rent payment of $950.00 is due soon.\n\nPayment Details:\nProperty: N/A\nDescription: March rent\nAmount: $950.00\n\n\nIf payment is not received by the 5th day of the month, a 10% late fee will be imposed.\nIf you have any questions or need more information, please visit:\nhttps://segundorentalservices.net/\n\nThank you!\nLandlord"


/-! Helper lemmas shared by the claim theorems. -/

/-- Folding string concatenation equals prepending the join. -/
theorem foldl_append_eq_join (l : List String) (i : String) :
    l.foldl (· ++ ·) i = i ++ String.join l := by
  induction l generalizing i with
  | nil => exact (String.append_empty i).symm
  | cons a l ih =>
      show l.foldl (· ++ ·) (i ++ a) = i ++ String.join (a :: l)
      rw [ih (i ++ a), String.append_assoc]
      show i ++ (a ++ String.join l) = i ++ List.foldl (· ++ ·) ("" ++ a) l
      rw [ih ("" ++ a), String.empty_append]

/-- Accumulating one rendered line per record is the join of the
rendered lines. -/
theorem foldl_failedLine (l : List FailedRec) (i : String) :
    l.foldl (fun b r => b ++ failedLine r) i = i ++ String.join (l.map failedLine) := by
  rw [← List.foldl_map, foldl_append_eq_join]

/-- Behaviour of one per-tenant step when a required field is missing:
the branch of lines 79-88. -/
theorem missing_field_step (T : Transport) (t : Tenant) (s : RunState)
    (field : String)
    (hf : required_fields.find? (fun f => !tenantHasKey t f) = some field) :
    send_email_reminder T t s = { s with
      log := s.log ++ [⟨.error,
        "Missing \x27" ++ field ++ "\x27 in tenant data: " ++ pyReprTenant t⟩],
      failure_count := s.failure_count + 1,
      failed_tenants := s.failed_tenants ++ [⟨tenantGetD t "name" (.str "Unknown"),
        tenantGetD t "email" (.str "Unknown"), "Missing field: " ++ field⟩] } := by
  unfold send_email_reminder send_email_reminder_body
  rw [hf]

/-- Behaviour of one per-tenant step when all required fields are
present but the float coercion raises ValueError: the inner except
clause of lines 93-102. -/
theorem invalid_amount_step (T : Transport) (t : Tenant) (s : RunState)
    (amtv : JVal)
    (hf : required_fields.find? (fun f => !tenantHasKey t f) = none)
    (hl : tenantLookup t "payment_amount" = some amtv)
    (hv : pyFloat amtv = .error .valueError) :
    send_email_reminder T t s = { s with
      log := s.log ++ [⟨.error,
        "Invalid payment_amount for tenant " ++
        pyStr (tenantGetD t "name" (.str "Unknown")) ++ ": " ++ pyStr amtv⟩],
      failure_count := s.failure_count + 1,
      failed_tenants := s.failed_tenants ++ [⟨tenantGetD t "name" (.str "Unknown"),
        tenantGetD t "email" (.str "Unknown"),
        "Invalid payment_amount: " ++ pyStr amtv⟩] } := by
  unfold send_email_reminder send_email_reminder_body
  simp only [hf, hl, hv]

/-- Behaviour of one per-tenant step when the float coercion raises
TypeError: not caught by the inner except clause, so handled by the
generic clause of lines 147-155. -/
theorem type_error_step (T : Transport) (t : Tenant) (s : RunState)
    (amtv : JVal) (tn : String)
    (hf : required_fields.find? (fun f => !tenantHasKey t f) = none)
    (hl : tenantLookup t "payment_amount" = some amtv)
    (hv : pyFloat amtv = .error (.typeError tn)) :
    send_email_reminder T t s = { s with
      log := s.log ++ [⟨.error,
        "Unexpected error when sending email to " ++
        pyStr (tenantGetD t "email" (.str "Unknown")) ++ ": " ++ floatTypeErrorMsg tn⟩],
      failure_count := s.failure_count + 1,
      failed_tenants := s.failed_tenants ++ [⟨tenantGetD t "name" (.str "Unknown"),
        tenantGetD t "email" (.str "Unknown"),
        "Unexpected error: " ++ floatTypeErrorMsg tn⟩] } := by
  unfold send_email_reminder send_email_reminder_body
  simp only [hf, hl, hv]
  rfl

/-- Behaviour of one per-tenant step for a valid tenant: the reminder is
composed and the transport invoked exactly once; the outcome of the
transport decides between the success path (lines 134-136) and the two
except clauses (lines 138-155). -/
theorem valid_tenant_step (T : Transport) (t : Tenant) (s : RunState)
    (amtv : JVal) (q : ℚ)
    (hf : required_fields.find? (fun f => !tenantHasKey t f) = none)
    (hl : tenantLookup t "payment_amount" = some amtv)
    (hv : pyFloat amtv = .ok q) :
    send_email_reminder T t s =
      (let sb := composeReminder s t q
       let recip := tenantGetD t "email" .jnull
       let s1 : RunState := { s with sent := s.sent ++ [SendCall.mk recip sb.1 sb.2 none] }
       match T recip sb.1 sb.2 with
       | .ok => { s1 with
           log := s1.log ++ [LogEvent.mk .info
             ("Reminder email sent successfully to " ++
              pyStr (tenantGetD t "name" .jnull) ++ " (" ++ pyStr recip ++ ").")],
           success_count := s1.success_count + 1 }
       | .smtpError m => { s1 with
           log := s1.log ++ [LogEvent.mk .error
             ("SMTP error when sending email to " ++
              pyStr (tenantGetD t "email" (.str "Unknown")) ++ ": " ++ m)],
           failure_count := s1.failure_count + 1,
           failed_tenants := s1.failed_tenants ++ [FailedRec.mk (tenantGetD t "name" (.str "Unknown"))
             (tenantGetD t "email" (.str "Unknown")) ("SMTP error: " ++ m)] }
       | .otherError m => { s1 with
           log := s1.log ++ [LogEvent.mk .error
             ("Unexpected error when sending email to " ++
              pyStr (tenantGetD t "email" (.str "Unknown")) ++ ": " ++ m)],
           failure_count := s1.failure_count + 1,
           failed_tenants := s1.failed_tenants ++ [FailedRec.mk (tenantGetD t "name" (.str "Unknown"))
             (tenantGetD t "email" (.str "Unknown")) ("Unexpected error: " ++ m)] }) := by
  unfold send_email_reminder send_email_reminder_body
  simp only [hf, hl, hv]
  cases T (tenantGetD t "email" .jnull) (composeReminder s t q).1 (composeReminder s t q).2 <;> rfl

/-- Behaviour of one per-tenant step on the unreachable KeyError branch
(payment_amount validated present but absent at indexing): the generic
except clause applies. -/
theorem missing_key_step (T : Transport) (t : Tenant) (s : RunState)
    (hf : required_fields.find? (fun f => !tenantHasKey t f) = none)
    (hl : tenantLookup t "payment_amount" = none) :
    send_email_reminder T t s = { s with
      log := s.log ++ [⟨.error,
        "Unexpected error when sending email to " ++
        pyStr (tenantGetD t "email" (.str "Unknown")) ++ ": " ++
        "KeyError: \x27payment_amount\x27"⟩],
      failure_count := s.failure_count + 1,
      failed_tenants := s.failed_tenants ++ [⟨tenantGetD t "name" (.str "Unknown"),
        tenantGetD t "email" (.str "Unknown"),
        "Unexpected error: " ++ "KeyError: \x27payment_amount\x27"⟩] } := by
  unfold send_email_reminder send_email_reminder_body
  simp only [hf, hl]
  rfl

/-- Processing one tenant never touches the phase trace. -/
theorem step_phases (T : Transport) (t : Tenant) (s : RunState) :
    (send_email_reminder T t s).phases = s.phases := by
  cases hf : required_fields.find? (fun f => !tenantHasKey t f) with
  | some field => rw [missing_field_step T t s field hf]
  | none =>
    cases hl : tenantLookup t "payment_amount" with
    | none => rw [missing_key_step T t s hf hl]
    | some amtv =>
      cases hv : pyFloat amtv with
      | error e =>
        cases e with
        | valueError => rw [invalid_amount_step T t s amtv hf hl hv]
        | typeError tn => rw [type_error_step T t s amtv tn hf hl hv]
      | ok q =>
        rw [valid_tenant_step T t s amtv q hf hl hv]
        dsimp only
        cases T (tenantGetD t "email" .jnull) (composeReminder s t q).1
          (composeReminder s t q).2 <;> rfl

/-- Processing one tenant increments exactly one of the two counters by
exactly one, and appends exactly one failed record exactly when the
failure counter is incremented. -/
theorem step_delta (T : Transport) (t : Tenant) (s : RunState) :
    ((send_email_reminder T t s).success_count = s.success_count + 1 ∧
     (send_email_reminder T t s).failure_count = s.failure_count ∧
     (send_email_reminder T t s).failed_tenants = s.failed_tenants) ∨
    ((send_email_reminder T t s).success_count = s.success_count ∧
     (send_email_reminder T t s).failure_count = s.failure_count + 1 ∧
     ∃ r, (send_email_reminder T t s).failed_tenants = s.failed_tenants ++ [r]) := by
  cases hf : required_fields.find? (fun f => !tenantHasKey t f) with
  | some field =>
      rw [missing_field_step T t s field hf]; exact Or.inr ⟨rfl, rfl, _, rfl⟩
  | none =>
    cases hl : tenantLookup t "payment_amount" with
    | none => rw [missing_key_step T t s hf hl]; exact Or.inr ⟨rfl, rfl, _, rfl⟩
    | some amtv =>
      cases hv : pyFloat amtv with
      | error e =>
        cases e with
        | valueError =>
            rw [invalid_amount_step T t s amtv hf hl hv]
            exact Or.inr ⟨rfl, rfl, _, rfl⟩
        | typeError tn =>
            rw [type_error_step T t s amtv tn hf hl hv]
            exact Or.inr ⟨rfl, rfl, _, rfl⟩
      | ok q =>
        rw [valid_tenant_step T t s amtv q hf hl hv]
        dsimp only
        cases T (tenantGetD t "email" .jnull) (composeReminder s t q).1
            (composeReminder s t q).2 with
        | ok => exact Or.inl ⟨rfl, rfl, rfl⟩
        | smtpError m => exact Or.inr ⟨rfl, rfl, _, rfl⟩
        | otherError m => exact Or.inr ⟨rfl, rfl, _, rfl⟩

/-- The tenant loop preserves the phase trace. -/
theorem foldl_phases (T : Transport) (ts : List Tenant) (s : RunState) :
    (ts.foldl (fun st t => send_email_reminder T t st) s).phases = s.phases := by
  induction ts generalizing s with
  | nil => rfl
  | cons t ts ih => rw [List.foldl_cons, ih, step_phases]

/-- The Validate-and-Send phase preserves the phase trace. -/
theorem send_emails_phases (T : Transport) (ts : List Tenant) (s : RunState) :
    (send_emails_to_all_tenants T ts s).phases = s.phases := by
  cases ts with
  | nil => rfl
  | cons t ts => exact foldl_phases T (t :: ts) s

/-- The Summarize phase preserves the phase trace. -/
theorem send_alert_phases (res : SmtpResult) (n : Nat) (s : RunState) :
    (send_alert_email res n s).phases = s.phases := by
  cases res <;> rfl

/-- The ShipLog phase preserves the phase trace. -/
theorem send_log_phases (res : SmtpResult) (lf : Option String) (p : String)
    (s : RunState) : (send_log_email res lf p s).phases = s.phases := by
  cases lf <;> cases res <;> rfl

/-- Counter bookkeeping of the tenant loop: the two counters advance by
the number of tenants processed, and the failed list grows in lockstep
with the failure counter. -/
theorem foldl_tally (T : Transport) (ts : List Tenant) :
    ∀ s : RunState,
      ((ts.foldl (fun st t => send_email_reminder T t st) s).success_count +
        (ts.foldl (fun st t => send_email_reminder T t st) s).failure_count =
        s.success_count + s.failure_count + ts.length) ∧
      ((ts.foldl (fun st t => send_email_reminder T t st) s).failed_tenants.length +
        s.failure_count =
        s.failed_tenants.length +
        (ts.foldl (fun st t => send_email_reminder T t st) s).failure_count) := by
  induction ts with
  | nil => intro s; simp
  | cons t ts ih =>
    intro s
    rw [List.foldl_cons]
    obtain ⟨ih1, ih2⟩ := ih (send_email_reminder T t s)
    rcases step_delta T t s with ⟨h1, h2, h3⟩ | ⟨h1, h2, r, h3⟩
    · have h3l : (send_email_reminder T t s).failed_tenants.length =
          s.failed_tenants.length := by rw [h3]
      refine ⟨?_, by omega⟩
      simp only [List.length_cons]; omega
    · have h3l : (send_email_reminder T t s).failed_tenants.length =
          s.failed_tenants.length + 1 := by rw [h3, List.length_append]; rfl
      refine ⟨?_, by omega⟩
      simp only [List.length_cons]; omega

/-! The claim theorems. -/

/-- C1: for every tenant record missing at least one required field,
processing the tenant records one failed outcome whose reason is
"Missing field: <field>" for a missing field (the first missing one in
the fixed order), increments failure_count, leaves success_count
untouched, and never invokes the mail transport. -/
theorem claim_C1_missing_field (T : Transport) (t : Tenant) (s : RunState)
    (h : ∃ f ∈ required_fields, tenantHasKey t f = false) :
    ∃ f r, f ∈ required_fields ∧ tenantHasKey t f = false ∧
      (send_email_reminder T t s).failed_tenants = s.failed_tenants ++ [r] ∧
      r.reason = "Missing field: " ++ f ∧
      strContains r.reason ("Missing field: " ++ f) ∧
      (send_email_reminder T t s).failure_count = s.failure_count + 1 ∧
      (send_email_reminder T t s).success_count = s.success_count ∧
      (send_email_reminder T t s).sent = s.sent := by
  obtain ⟨f, hmem, hkey⟩ := h
  have hs : (required_fields.find? (fun f => !tenantHasKey t f)).isSome :=
    List.find?_isSome.mpr ⟨f, hmem, by simp [hkey]⟩
  obtain ⟨f0, hf0⟩ := Option.isSome_iff_exists.mp hs
  have hmem0 : f0 ∈ required_fields := List.mem_of_find?_eq_some hf0
  have hkey0 : tenantHasKey t f0 = false := by
    have := List.find?_some hf0
    simpa using this
  refine ⟨f0, ⟨tenantGetD t "name" (.str "Unknown"),
    tenantGetD t "email" (.str "Unknown"), "Missing field: " ++ f0⟩,
    hmem0, hkey0, ?_, rfl, ⟨"", "", (String.append_empty _).symm.trans
      (congrArg (· ++ "") (String.empty_append _).symm)⟩, ?_, ?_, ?_⟩ <;>
    rw [missing_field_step T t s f0 hf0]

/-- Witness for C1 at a concrete input: a tenant lacking `email`. -/
theorem claim_C1_missing_field_witness :
    (∃ f ∈ required_fields, tenantHasKey noEmailTenant f = false) ∧
    (∃ f r, f ∈ required_fields ∧ tenantHasKey noEmailTenant f = false ∧
      (send_email_reminder alwaysOk noEmailTenant initState).failed_tenants =
        initState.failed_tenants ++ [r] ∧
      r.reason = "Missing field: " ++ f ∧
      strContains r.reason ("Missing field: " ++ f) ∧
      (send_email_reminder alwaysOk noEmailTenant initState).failure_count =
        initState.failure_count + 1 ∧
      (send_email_reminder alwaysOk noEmailTenant initState).success_count =
        initState.success_count ∧
      (send_email_reminder alwaysOk noEmailTenant initState).sent =
        initState.sent) :=
  ⟨⟨"email", by decide, by decide⟩,
   claim_C1_missing_field alwaysOk noEmailTenant initState
     ⟨"email", by decide, by decide⟩⟩

/-- C10: processing one tenant increments exactly one of the two
counters by exactly one and appends one failed record exactly when the
failure counter is incremented; consequently, over a whole run from the
initial state, success_count + failure_count equals the number of
tenants and the failed list has failure_count entries. -/
theorem claim_C10_tally_invariant :
    (∀ (T : Transport) (t : Tenant) (s : RunState),
      ((send_email_reminder T t s).success_count = s.success_count + 1 ∧
       (send_email_reminder T t s).failure_count = s.failure_count ∧
       (send_email_reminder T t s).failed_tenants = s.failed_tenants) ∨
      ((send_email_reminder T t s).success_count = s.success_count ∧
       (send_email_reminder T t s).failure_count = s.failure_count + 1 ∧
       ∃ r, (send_email_reminder T t s).failed_tenants = s.failed_tenants ++ [r])) ∧
    (∀ (T : Transport) (ts : List Tenant),
      (send_emails_to_all_tenants T ts initState).success_count +
        (send_emails_to_all_tenants T ts initState).failure_count = ts.length ∧
      (send_emails_to_all_tenants T ts initState).failed_tenants.length =
        (send_emails_to_all_tenants T ts initState).failure_count) := by
  refine ⟨step_delta, ?_⟩
  intro T ts
  cases ts with
  | nil => exact ⟨rfl, rfl⟩
  | cons t ts =>
    have h1 := (foldl_tally T (t :: ts) initState).1
    have h2 := (foldl_tally T (t :: ts) initState).2
    exact ⟨by simpa [send_emails_to_all_tenants, initState] using h1,
           by simpa [send_emails_to_all_tenants, initState] using h2⟩

/-- C3: per-tenant processing is total and the loop continues past
every element regardless of its outcome; in particular, when the
transport raises an SMTPException for a valid tenant, that tenant is
recorded as failed with the transport error text inside the reason, the
success counter is untouched, and the remaining tenants are still folded
over. -/
theorem claim_C3_errors_contained (T : Transport) (t : Tenant)
    (rest : List Tenant) (s : RunState) (amtv : JVal) (q : ℚ) (m : String)
    (hT : ∀ r su b, T r su b = .smtpError m)
    (hf : required_fields.find? (fun f => !tenantHasKey t f) = none)
    (hl : tenantLookup t "payment_amount" = some amtv)
    (hv : pyFloat amtv = .ok q) :
    (∀ (T2 : Transport) (t2 : Tenant) (rest2 : List Tenant) (s2 : RunState),
      send_emails_to_all_tenants T2 (t2 :: rest2) s2 =
        rest2.foldl (fun st u => send_email_reminder T2 u st)
          (send_email_reminder T2 t2 s2)) ∧
    (∃ r, (send_email_reminder T t s).failed_tenants = s.failed_tenants ++ [r] ∧
      r.reason = "SMTP error: " ++ m ∧ strContains r.reason m ∧
      (send_email_reminder T t s).failure_count = s.failure_count + 1 ∧
      (send_email_reminder T t s).success_count = s.success_count) ∧
    send_emails_to_all_tenants T (t :: rest) s =
      rest.foldl (fun st u => send_email_reminder T u st)
        (send_email_reminder T t s) := by
  refine ⟨fun T2 t2 rest2 s2 => rfl, ?_, rfl⟩
  rw [valid_tenant_step T t s amtv q hf hl hv]
  dsimp only
  rw [hT]
  exact ⟨⟨tenantGetD t "name" (.str "Unknown"),
    tenantGetD t "email" (.str "Unknown"), "SMTP error: " ++ m⟩,
    rfl, rfl, ⟨"SMTP error: ", "", (String.append_empty _).symm⟩, rfl, rfl⟩

/-- Witness for C3 at a concrete input: the transport raises for the
valid tenant Alice, with Bob remaining in the list. -/
theorem claim_C3_errors_contained_witness :
    (∀ r su b, alwaysBoom r su b = .smtpError "boom") ∧
    ((∀ (T2 : Transport) (t2 : Tenant) (rest2 : List Tenant) (s2 : RunState),
      send_emails_to_all_tenants T2 (t2 :: rest2) s2 =
        rest2.foldl (fun st u => send_email_reminder T2 u st)
          (send_email_reminder T2 t2 s2)) ∧
    (∃ r, (send_email_reminder alwaysBoom aliceTenant initState).failed_tenants =
        initState.failed_tenants ++ [r] ∧
      r.reason = "SMTP error: " ++ "boom" ∧ strContains r.reason "boom" ∧
      (send_email_reminder alwaysBoom aliceTenant initState).failure_count =
        initState.failure_count + 1 ∧
      (send_email_reminder alwaysBoom aliceTenant initState).success_count =
        initState.success_count) ∧
    send_emails_to_all_tenants alwaysBoom (aliceTenant :: [bobTenant]) initState =
      [bobTenant].foldl (fun st u => send_email_reminder alwaysBoom u st)
        (send_email_reminder alwaysBoom aliceTenant initState)) :=
  ⟨fun _ _ _ => rfl,
   claim_C3_errors_contained alwaysBoom aliceTenant [bobTenant] initState
     (.str "950") 950 "boom" (fun _ _ _ => rfl) (by decide) (by decide)
     (by decide)⟩

/-- C2 counterexample: for the tenant whose payment_amount is present
but is JSON null, the recorded failure reason is the generic
"Unexpected error: ..." text of the TypeError raised by the float
constructor, not "Invalid payment_amount: None" as the claim requires
(the inner except clause catches ValueError only).  The tenant is still
recorded as failed and the transport is never invoked. -/
theorem claim_C2_counterexample :
    tenantHasKey nullAmountTenant "payment_amount" = true ∧
    (send_email_reminder alwaysOk nullAmountTenant initState).failure_count = 1 ∧
    (send_email_reminder alwaysOk nullAmountTenant initState).success_count = 0 ∧
    (send_email_reminder alwaysOk nullAmountTenant initState).sent = [] ∧
    (send_email_reminder alwaysOk nullAmountTenant initState).failed_tenants =
      [⟨.str "Nina", .str "n@x.com",
        "Unexpected error: " ++ floatTypeErrorMsg "NoneType"⟩] ∧
    ¬ ((send_email_reminder
        alwaysOk nullAmountTenant initState).failed_tenants.map FailedRec.reason =
      ["Invalid payment_amount: " ++ pyStr JVal.jnull]) := by
  refine ⟨by decide, by decide, by decide, by decide, by decide, by decide⟩

/-- C2 (amended): for every tenant record with all required fields
present whose payment_amount is a string that the float constructor does
not accept, processing records one failed outcome with reason exactly
"Invalid payment_amount: <raw string>", increments failure_count,
leaves success_count untouched, and never invokes the mail
transport. -/
theorem claim_C2_invalid_amount (T : Transport) (t : Tenant) (s : RunState)
    (raw : String)
    (hf : required_fields.find? (fun f => !tenantHasKey t f) = none)
    (hl : tenantLookup t "payment_amount" = some (.str raw))
    (hbad : pyFloatOfString raw = none) :
    ∃ r, (send_email_reminder T t s).failed_tenants = s.failed_tenants ++ [r] ∧
      r.reason = "Invalid payment_amount: " ++ raw ∧
      (send_email_reminder T t s).failure_count = s.failure_count + 1 ∧
      (send_email_reminder T t s).success_count = s.success_count ∧
      (send_email_reminder T t s).sent = s.sent := by
  have hv : pyFloat (.str raw) = .error .valueError := by
    unfold pyFloat
    simp only [hbad]
  rw [invalid_amount_step T t s (.str raw) hf hl hv]
  exact ⟨⟨tenantGetD t "name" (.str "Unknown"),
    tenantGetD t "email" (.str "Unknown"),
    "Invalid payment_amount: " ++ pyStr (.str raw)⟩, rfl, rfl, rfl, rfl, rfl⟩

/-- Witness for the amended C2 at a concrete input: payment_amount is
the string "abc". -/
theorem claim_C2_invalid_amount_witness :
    (required_fields.find? (fun f => !tenantHasKey badAmountTenant f) = none ∧
     tenantLookup badAmountTenant "payment_amount" = some (.str "abc") ∧
     pyFloatOfString "abc" = none) ∧
    (∃ r, (send_email_reminder alwaysOk badAmountTenant initState).failed_tenants =
        initState.failed_tenants ++ [r] ∧
      r.reason = "Invalid payment_amount: " ++ "abc" ∧
      (send_email_reminder alwaysOk badAmountTenant initState).failure_count =
        initState.failure_count + 1 ∧
      (send_email_reminder alwaysOk badAmountTenant initState).success_count =
        initState.success_count ∧
      (send_email_reminder alwaysOk badAmountTenant initState).sent =
        initState.sent) :=
  ⟨⟨by decide, by decide, by decide⟩,
   claim_C2_invalid_amount alwaysOk badAmountTenant initState "abc"
     (by decide) (by decide) (by decide)⟩

/-- C8: reminder composition is deterministic in the tenant record and
independent of the ambient process state: for identical tenants and
amounts, under any two global states, the composed subject and body
coincide. -/
theorem claim_C8_compose_pure (env env2 : RunState) (t t2 : Tenant)
    (q q2 : ℚ) (ht : t = t2) (hq : q = q2) :
    composeReminder env t q = composeReminder env2 t2 q2 := by
  cases ht
  cases hq
  rfl

/-- Witness for C8 at a concrete input: the same tenant composed under
two different global states. -/
theorem claim_C8_compose_pure_witness :
    (aliceTenant = aliceTenant ∧ (950 : ℚ) = 950) ∧
    composeReminder initState aliceTenant 950 =
      composeReminder { initState with success_count := 5 } aliceTenant 950 :=
  ⟨⟨rfl, rfl⟩,
   claim_C8_compose_pure initState { initState with success_count := 5 }
     aliceTenant aliceTenant 950 950 rfl rfl⟩

/-- The full run enters the three phases in their fixed order, exactly
once each, whatever the outcomes inside each phase. -/
theorem run_phases (T : Transport) (ares lres : SmtpResult)
    (lf : Option String) (lp : String) (tenants : List Tenant)
    (s : RunState) :
    (check_and_send_email T ares lres lf lp tenants s).phases =
      s.phases ++ [.validateSend, .summarize, .shipLog] := by
  unfold check_and_send_email
  rw [send_log_phases]
  dsimp only
  rw [send_alert_phases]
  dsimp only
  rw [send_emails_phases]
  dsimp only
  simp

/-- The Summarize phase appends exactly one transport invocation: the
fixed-recipient summary email whose body is built from the tally. -/
theorem send_alert_sent (res : SmtpResult) (n : Nat) (s : RunState) :
    (send_alert_email res n s).sent = s.sent ++
      [⟨.str landlordAddress, "Rent Reminder Emails Sent - Summary",
        buildAlertBody n s.success_count s.failure_count s.failed_tenants,
        none⟩] := by
  cases res <;> rfl

/-- C4: running the batch on the empty tenant list leaves the tally at
zero, logs exactly the warning, performs no per-tenant processing and no
transport call; in the full run the Summarize and ShipLog phases still
execute, and the first transport invocation of the run is the summary
email, whose body contains "Total Tenants: 0". -/
theorem claim_C4_empty_batch (T : Transport) (ares lres : SmtpResult)
    (lf : Option String) (lp : String) :
    send_emails_to_all_tenants T [] initState =
      { initState with
        log := [⟨.warning, "No tenants found to send emails."⟩] } ∧
    (send_emails_to_all_tenants T [] initState).success_count = 0 ∧
    (send_emails_to_all_tenants T [] initState).failure_count = 0 ∧
    (send_emails_to_all_tenants T [] initState).sent = [] ∧
    (check_and_send_email T ares lres lf lp [] initState).phases =
      [.validateSend, .summarize, .shipLog] ∧
    (∃ c rest, (check_and_send_email T ares lres lf lp [] initState).sent =
        c :: rest ∧
      c.subject = "Rent Reminder Emails Sent - Summary" ∧
      c.body = buildAlertBody 0 0 0 [] ∧
      strContains c.body "Total Tenants: 0") := by
  refine ⟨rfl, rfl, rfl, rfl, by rw [run_phases]; rfl, ?_⟩
  refine ⟨⟨.str landlordAddress, "Rent Reminder Emails Sent - Summary",
    buildAlertBody 0 0 0 [], none⟩, ?_⟩
  have hbody : strContains (buildAlertBody 0 0 0 []) "Total Tenants: 0" :=
    ⟨"Hello,\n\nAll rent reminder emails have been processed.\n\nSummary:\n- ",
     "\n- Successfully Sent: 0\n- Failed to Send: 0\n\n\n\nBest regards,\nYour Automated Email System\n",
     by decide⟩
  cases lf with
  | none => cases ares <;> cases lres <;> exact ⟨[], rfl, rfl, rfl, hbody⟩
  | some content =>
      cases ares <;> cases lres <;>
        exact ⟨[⟨.str landlordAddress, "Email Reminder Logs - Execution Summary",
          logEmailBody, some content⟩], rfl, rfl, rfl, hbody⟩

/-- C5: every run executes Validate-and-Send, Summarize, ShipLog in this
order, each exactly once, whatever happens inside the phases; an
SMTPException or any other exception raised inside the Summarize or
ShipLog phase, and a missing log file in the ShipLog phase, are each
converted into a single error log entry and swallowed. -/
theorem claim_C5_three_phases (T : Transport) (ares lres : SmtpResult)
    (lf : Option String) (lp : String) (tenants : List Tenant)
    (s : RunState) :
    (check_and_send_email T ares lres lf lp tenants s).phases =
      s.phases ++ [.validateSend, .summarize, .shipLog] ∧
    (∀ m n st, ∃ st1,
      send_alert_email_body (.smtpError m) n st = .error (.smtpExn m, st1) ∧
      send_alert_email (.smtpError m) n st = { st1 with log := st1.log ++
        [⟨.error, "SMTP error when sending alert email: " ++ m⟩] }) ∧
    (∀ m n st, ∃ st1,
      send_alert_email_body (.otherError m) n st = .error (.otherExn m, st1) ∧
      send_alert_email (.otherError m) n st = { st1 with log := st1.log ++
        [⟨.error, "Unexpected error when sending alert email: " ++ m⟩] }) ∧
    (∀ m content lp2 st, ∃ st1,
      send_log_email_body (.smtpError m) (some content) st =
        .error (.smtpExn m, st1) ∧
      send_log_email (.smtpError m) (some content) lp2 st = { st1 with
        log := st1.log ++
          [⟨.error, "SMTP error when sending log email: " ++ m⟩] }) ∧
    (∀ m content lp2 st, ∃ st1,
      send_log_email_body (.otherError m) (some content) st =
        .error (.otherExn m, st1) ∧
      send_log_email (.otherError m) (some content) lp2 st = { st1 with
        log := st1.log ++
          [⟨.error, "Unexpected error when sending log email: " ++ m⟩] }) ∧
    (∀ res lp2 st,
      send_log_email_body res none st = .error (.fileNotFound, st) ∧
      send_log_email res none lp2 st = { st with log := st.log ++
        [⟨.error,
          "Log file not found at " ++ lp2 ++ ". Cannot send log email."⟩] }) := by
  refine ⟨run_phases T ares lres lf lp tenants s,
    fun m n st => ⟨_, rfl, rfl⟩,
    fun m n st => ⟨_, rfl, rfl⟩,
    fun m content lp2 st => ⟨_, rfl, rfl⟩,
    fun m content lp2 st => ⟨_, rfl, rfl⟩,
    fun res lp2 st => ⟨rfl, rfl⟩⟩

/-- C6: when the failure counter is positive the summary body is the
counter prefix, the "Failed Tenants:" header, then exactly one line per
failed record in recorded order, then the fixed closing; when the
failure counter is zero, no failed-tenant list appears between prefix
and closing.  The summary email actually dispatched carries exactly this
body. -/
theorem claim_C6_summary_lists_failures (total sc fc : Nat)
    (failed : List FailedRec) :
    (0 < fc → buildAlertBody total sc fc failed =
      alertBodyPrefix total sc fc ++ "Failed Tenants:\n" ++
        String.join (failed.map failedLine) ++ alertBodySuffix) ∧
    (fc = 0 → buildAlertBody total sc fc failed =
      alertBodyPrefix total sc fc ++ alertBodySuffix) ∧
    (∀ (res : SmtpResult) (n : Nat) (st : RunState),
      (send_alert_email res n st).sent = st.sent ++
        [⟨.str landlordAddress, "Rent Reminder Emails Sent - Summary",
          buildAlertBody n st.success_count st.failure_count st.failed_tenants,
          none⟩]) := by
  refine ⟨?_, ?_, send_alert_sent⟩
  · intro hfc
    unfold buildAlertBody
    dsimp only
    rw [if_pos hfc, foldl_failedLine]
  · intro hfc
    subst hfc
    unfold buildAlertBody
    dsimp only
    simp

/-- Witness for C6 at a concrete input: one recorded failure. -/
theorem claim_C6_summary_lists_failures_witness :
    ((0 : Nat) < 1 ∧ buildAlertBody 2 1 1
        [⟨.str "Bob", .str "b@x.com", "Missing field: email"⟩] =
      alertBodyPrefix 2 1 1 ++ "Failed Tenants:\n" ++
        String.join ([(⟨.str "Bob", .str "b@x.com",
          "Missing field: email"⟩ : FailedRec)].map failedLine) ++
        alertBodySuffix) ∧
    ((0 : Nat) = 0 ∧ buildAlertBody 2 2 0 [] =
      alertBodyPrefix 2 2 0 ++ alertBodySuffix) :=
  ⟨⟨Nat.one_pos, (claim_C6_summary_lists_failures 2 1 1
      [⟨.str "Bob", .str "b@x.com", "Missing field: email"⟩]).1 Nat.one_pos⟩,
   ⟨rfl, (claim_C6_summary_lists_failures 2 2 0 []).2.1 rfl⟩⟩

/-- C7: a missing tenants file, malformed JSON, and a parsed top-level
value that is not an array each yield the empty tenant list together
with one error log entry, without aborting (the loader is total and
returns normally); a run over the resulting empty list still enters the
Summarize and ShipLog phases. -/
theorem claim_C7_load_errors_recoverable (path e : String) (v : JVal)
    (T : Transport) (ares lres : SmtpResult) (lf : Option String)
    (lp : String) :
    loadTenants path .fileMissing =
      ([], [⟨.error, "tenants.json file not found at " ++ path ++ "."⟩]) ∧
    loadTenants path (.malformedJson e) =
      ([], [⟨.error, "tenants.json is not a valid JSON file: " ++ e⟩]) ∧
    loadTenants path (.parsedNonArray v) =
      ([], [⟨.error, "tenants.json should be a JSON array of tenant objects."⟩]) ∧
    (check_and_send_email T ares lres lf lp
        (loadTenants path .fileMissing).1 initState).phases =
      [.validateSend, .summarize, .shipLog] := by
  refine ⟨rfl, rfl, rfl, ?_⟩
  rw [run_phases]
  rfl

/-- C9: processing the scenario-A tenant with a succeeding transport
dispatches exactly one email, with subject "Rent Payment Reminder" and a
body containing "$950.00" (the amount, currency-prefixed and with two
decimals) and "March rent", and counts one success. -/
theorem claim_C9_scenario_A :
    (send_email_reminder alwaysOk aliceTenant initState).sent =
      [⟨.str "a@x.com", "Rent Payment Reminder", aliceBody, none⟩] ∧
    (send_email_reminder alwaysOk aliceTenant initState).success_count = 1 ∧
    strContains aliceBody "$950.00" ∧
    strContains aliceBody "March rent" := by
  refine ⟨by decide, by decide, ?_, ?_⟩
  · exact ⟨"Dear Alice,\n\nThis is a friendly reminder that your rent payment of ",
      " is due soon.\n\nPayment Details:\nProperty: N/A\nDescription: March rent\nAmount: $950.00\n\n\nIf payment is not received by the 5th day of the month, a 10% late fee will be imposed.\nIf you have any questions or need more information, please visit:\nhttps://segundorentalservices.net/\n\nThank you!\nLandlord",
      by decide⟩
  · exact ⟨"Dear Alice,\n\nThis is a friendly reminder that your rent payment of $950.00 is due soon.\n\nPayment Details:\nProperty: N/A\nDescription: ",
      "\nAmount: $950.00\n\n\nIf payment is not received by the 5th day of the month, a 10% late fee will be imposed.\nIf you have any questions or need more information, please visit:\nhttps://segundorentalservices.net/\n\nThank you!\nLandlord",
      by decide⟩

end EmailReminder
